import Mathlib

/-!
# Verification of the Solana token-app transaction orchestrator

Shallow embedding of the `WalletConnection` component of `src/src/App.tsx`
(the revision spanning lines 792-1107, the one the specification and the
claims reference): session state, the transaction-history log, and the
operations `createToken`, `mintTokens`, `transferTokens`,
`fetchSolBalance`, `fetchTokenBalance`.

Modelling conventions:
* All collaborator calls (RPC client, wallet signing) are resolved through
  an explicit `Env` record: each field holds the outcome the collaborator
  would return for the corresponding call (`none` / `false` meaning the
  call throws).  Each operation returns the updated session state, the
  user-visible outcome (success or the exact toast error raised), the list
  of network calls it performed in order, the transaction record it
  appended (if any), and the mint keypair it generated (if any).
* JavaScript numbers are modelled as exact rationals; the string inputs of
  the amount fields are parsed by a faithful model of `parseFloat`
  (longest numeric prefix, `none` = `NaN`; the `Infinity` literal is out
  of scope).  `Math.floor` is modelled by flooring division.
* `Keypair.generate()` draws from the entropy source; this is modelled by
  a nonce in the session state that increases on every draw, so distinct
  draws yield distinct keys, which is what fresh keypair generation
  guarantees.
* `new PublicKey(string)` (web3.js collaborator, pure local validation) is
  modelled by a base58 decoder that rejects characters outside the base58
  alphabet and values of more than 32 bytes.
* `getAssociatedTokenAddress` is a pure derivation; it is modelled by an
  injective pairing of mint and owner.
-/

abbrev PubKey := Nat

abbrev Sig := Nat

/-- The `type` field of a history entry: the code uses the strings
"Token Creation", "Token Mint", "Token Transfer". -/
inductive TxKind
  | creation
  | mint
  | transfer
deriving DecidableEq, Repr

/-- The `status` field of a history entry. -/
inductive TxStatus
  | pending
  | confirmed
  | failed
deriving DecidableEq, Repr

/-- One entry of the `transactionHistory` state array (interface
`TransactionHistory` in the source). -/
structure TxRecord where
  kind : TxKind
  signature : Sig
  timestamp : Nat
  amount : Option ℚ
  recipient : Option String
  status : TxStatus
deriving DecidableEq, Repr

/-- The instruction payloads produced by the spl-token / web3.js builders
used in the source. -/
inductive Ixn
  | createAccount (fromPubkey newAccountPubkey : PubKey) (space lamports : Nat)
  | initializeMint (mint : PubKey) (decimals : Nat) (mintAuthority freezeAuthority : PubKey)
  | createATA (payer ata owner mint : PubKey)
  | mintTo (mint dest authority : PubKey) (amount : Int)
  | transfer (source dest owner : PubKey) (amount : Int)
deriving DecidableEq, Repr

/-- A `Transaction` being built: its instruction list plus the
`recentBlockhash` and `feePayer` fields assigned before signing. -/
structure SolTransaction where
  instructions : List Ixn
  recentBlockhash : Option Nat
  feePayer : Option PubKey
deriving DecidableEq, Repr

/-- The network (RPC) calls an operation can perform, in the order it
performs them.  Wallet signing is not a network call. -/
inductive NetCall
  | getBalance (owner : PubKey)
  | getMinBalanceRent
  | getLatestBlockhash
  | sendRawTransaction (tx : SolTransaction)
  | confirmTransaction (sig : Sig)
  | getAccount (addr : PubKey)
deriving DecidableEq, Repr

/-- The exact error surfaces (toast messages) of the source, one
constructor per distinct message. -/
inductive OpErr
  | walletNotConnected
  | missingRequiredParameters
  | connectAndFillAllFields
  | invalidMintAmount
  | invalidTransferAmount
  | amountNotPositive
  | insufficientBalance (balance : ℚ)
  | caught (k : TxKind)
deriving DecidableEq, Repr

/-- Outcome of one operation invocation. -/
inductive OpResult
  | ok
  | err (e : OpErr)
deriving DecidableEq, Repr

/-- The React state of the `WalletConnection` component (amount/address
inputs are controlled inputs, hence part of the state). `keyNonce` models
the entropy source consumed by `Keypair.generate()`. -/
structure SessionState where
  publicKey : Option PubKey
  signCapable : Bool
  solBalance : ℚ
  tokenMint : Option PubKey
  tokenAccount : Option PubKey
  tokenBalance : ℚ
  recipientAddress : String
  transferAmount : String
  mintAmount : String
  history : List TxRecord
  keyNonce : Nat
deriving DecidableEq, Repr

/-- Collaborator outcomes for one operation invocation.  `none`/`false`
means the corresponding call throws.  The `2` fields are the second
blockhash/sign/send/confirm round used by the associated-token-account
sub-step of `createToken`. -/
structure Env where
  now : Nat
  rentLamports : Option Nat
  blockhash1 : Option Nat
  sign1 : Bool
  send1 : Option Sig
  confirm1 : Bool
  blockhash2 : Option Nat
  sign2 : Bool
  send2 : Option Sig
  confirm2 : Bool
  recipientAccountExists : Bool
  getAccountResult : Option Nat
  getBalanceResult : Option Nat
deriving DecidableEq, Repr

/-- Result bundle of an operation invocation: new state, outcome, network
calls performed in order, the history record appended by this invocation
(if any, with the field values it was appended with), and the mint keypair
generated inside the invocation (if any). -/
structure OpOut where
  state : SessionState
  result : OpResult
  trace : List NetCall
  appended : Option TxRecord
  genKey : Option PubKey
deriving DecidableEq, Repr

/-- The catch handlers: `prev.map(tx => tx.type === k ? {...tx, status:
failed} : tx)`. -/
def failByType (k : TxKind) (h : List TxRecord) : List TxRecord :=
  h.map fun r => if r.kind = k then { r with status := TxStatus.failed } else r

/-- The success handlers: `prev.map(tx => tx.signature === sig ? {...tx,
status: confirmed} : tx)`. -/
def confirmBySig (sg : Sig) (h : List TxRecord) : List TxRecord :=
  h.map fun r => if r.signature = sg then { r with status := TxStatus.confirmed } else r

/-- `getAssociatedTokenAddress(mint, owner)`: deterministic injective
derivation of the associated token account (pure, no network). -/
def deriveATA (mint owner : PubKey) : PubKey := Nat.pair mint owner

/-- `MINT_SIZE` constant of spl-token. -/
def MINT_SIZE : Nat := 82

/-- Value of a digit string, most significant first. -/
def digitsVal (ds : List Char) : Nat :=
  ds.foldl (fun n c => n * 10 + (c.toNat - 48)) 0

/-- Model of JavaScript `parseFloat`: skip leading whitespace, optional
sign, longest prefix of the form `digits [. digits] [e/E [sign] digits]`;
`none` models `NaN` (no digits found).  An exponent marker not followed by
digits is not consumed, as in JavaScript. -/
def jsParseFloat (str : String) : Option ℚ :=
  let cs0 := str.toList.dropWhile Char.isWhitespace
  let neg : Bool :=
    match cs0 with
    | '-' :: _ => true
    | _ => false
  let cs1 :=
    match cs0 with
    | '-' :: rest => rest
    | '+' :: rest => rest
    | _ => cs0
  let ds := cs1.takeWhile Char.isDigit
  let cs2 := cs1.dropWhile Char.isDigit
  let fs :=
    match cs2 with
    | '.' :: rest => rest.takeWhile Char.isDigit
    | _ => []
  let cs3 :=
    match cs2 with
    | '.' :: rest => rest.dropWhile Char.isDigit
    | _ => cs2
  if ds.isEmpty ∧ fs.isEmpty then none
  else
    let num : Nat := digitsVal ds * 10 ^ fs.length + digitsVal fs
    let den : Nat := 10 ^ fs.length
    let eneg : Bool :=
      match cs3 with
      | 'e' :: '-' :: _ => true
      | 'E' :: '-' :: _ => true
      | _ => false
    let es : List Char :=
      match cs3 with
      | 'e' :: '-' :: rest => rest.takeWhile Char.isDigit
      | 'E' :: '-' :: rest => rest.takeWhile Char.isDigit
      | 'e' :: '+' :: rest => rest.takeWhile Char.isDigit
      | 'E' :: '+' :: rest => rest.takeWhile Char.isDigit
      | 'e' :: rest => rest.takeWhile Char.isDigit
      | 'E' :: rest => rest.takeWhile Char.isDigit
      | _ => []
    let e : Nat := digitsVal es
    let v : ℚ :=
      if eneg then mkRat num (den * 10 ^ e) else mkRat (num * 10 ^ e) den
    some (if neg then -v else v)

/-- `BigInt(Math.floor(amount * 1e9))`: the fixed 9-decimal base-unit
scaling applied to the parsed amount.  Computed on the numerator and
denominator so that it evaluates by kernel reduction;
`scaledBaseUnits_eq_floor` below proves it equals `⌊a * 10^9⌋`. -/
def scaledBaseUnits (a : ℚ) : Int := Int.fdiv (a.num * 1000000000) a.den

/-- Index of a character in the base58 alphabet, if any. -/
def b58Index (c : Char) : Option Nat :=
  let alphabet := "123456789ABCDEFGHJKLMNPQRSTUVWXYZabcdefghijkmnopqrstuvwxyz".toList
  let i := alphabet.indexOf c
  if i < 58 then some i else none

/-- Numeric value of a base58 string; `none` if some character is outside
the alphabet. -/
def base58Value (cs : List Char) : Option Nat :=
  cs.foldl
    (fun acc c =>
      match acc, b58Index c with
      | some v, some d => some (v * 58 + d)
      | _, _ => none)
    (some 0)

/-- Model of the web3.js `new PublicKey(string)` constructor (SDK
collaborator, pure local validation): base58 decode, rejecting strings
with characters outside the alphabet or decoding to more than 32 bytes. -/
def parsePubKey (str : String) : Option PubKey :=
  match base58Value str.toList with
  | some v => if v < 2 ^ 256 then some v else none
  | none => none

/-- The guard `!publicKey || !signTransaction` of `createToken`. -/
def walletGuard (s : SessionState) : Option PubKey :=
  match s.publicKey with
  | some pk => if s.signCapable then some pk else none
  | none => none

/-- The guard `!publicKey || !signTransaction || !tokenMint ||
!tokenAccount` of `mintTokens`. -/
def mintGuard (s : SessionState) : Option (PubKey × PubKey × PubKey) :=
  match walletGuard s, s.tokenMint, s.tokenAccount with
  | some pk, some m, some acc => some (pk, m, acc)
  | _, _, _ => none

/-- The guard of `transferTokens`, which additionally requires the
recipient-address and amount input fields to be non-empty. -/
def transferGuard (s : SessionState) : Option (PubKey × PubKey × PubKey) :=
  match mintGuard s with
  | some t =>
    if s.recipientAddress ≠ "" ∧ s.transferAmount ≠ "" then some t else none
  | none => none

/-- The body of `fetchTokenBalance` as used inside the mutating
operations: given the `publicKey` and `tokenAccount` the callback closed
over, returns the new token balance and the network calls made.  On a
successful read the balance is `amount / 1e9`; on a failed read the
balance is set to `0` (the catch branch `setTokenBalance(0)`). -/
def refreshTokenBalance (pk? acct? : Option PubKey) (cur : ℚ) (env : Env) :
    ℚ × List NetCall :=
  match pk?, acct? with
  | some _, some acc =>
    match env.getAccountResult with
    | some amt => (mkRat amt 1000000000, [NetCall.getAccount acc])
    | none => (0, [NetCall.getAccount acc])
  | _, _ => (cur, [])

/-- `fetchTokenBalance` (App.tsx lines 842-850) invoked on its own. -/
def fetchTokenBalance (s : SessionState) (env : Env) : OpOut :=
  let (bal, tr) := refreshTokenBalance s.publicKey s.tokenAccount s.tokenBalance env
  ⟨{ s with tokenBalance := bal }, OpResult.ok, tr, none, none⟩

/-- `fetchSolBalance` (App.tsx lines 832-840): on success stores
`balance / 1e9`; on a failed read only toasts, retaining the previous
value. -/
def fetchSolBalance (s : SessionState) (env : Env) : OpOut :=
  match s.publicKey with
  | none => ⟨s, OpResult.ok, [], none, none⟩
  | some pk =>
    match env.getBalanceResult with
    | some b =>
      ⟨{ s with solBalance := mkRat b 1000000000 }, OpResult.ok,
        [NetCall.getBalance pk], none, none⟩
    | none => ⟨s, OpResult.ok, [NetCall.getBalance pk], none, none⟩

/-- `createToken` (App.tsx lines 862-951).  Two sub-steps: create and
initialize the mint, then create the associated token account; the
context pair is committed only after both confirmations; any throw lands
in the catch, which toasts and marks every record of kind Creation as
failed.  The trailing `fetchTokenBalance()` call runs the callback closed
over the pre-update `tokenAccount` (React state updates are not visible
to the already-captured closure). -/
def createToken (s : SessionState) (env : Env) : OpOut :=
  match walletGuard s with
  | none => ⟨s, OpResult.err OpErr.walletNotConnected, [], none, none⟩
  | some pk =>
    let mintKey := s.keyNonce
    let s1 := { s with keyNonce := s.keyNonce + 1 }
    match env.rentLamports with
    | none =>
      ⟨{ s1 with history := failByType TxKind.creation s1.history },
        OpResult.err (OpErr.caught TxKind.creation),
        [NetCall.getMinBalanceRent], none, some mintKey⟩
    | some lamports =>
      match env.blockhash1 with
      | none =>
        ⟨{ s1 with history := failByType TxKind.creation s1.history },
          OpResult.err (OpErr.caught TxKind.creation),
          [NetCall.getMinBalanceRent, NetCall.getLatestBlockhash], none, some mintKey⟩
      | some bh1 =>
        let tx1 : SolTransaction :=
          { instructions :=
              [Ixn.createAccount pk mintKey MINT_SIZE lamports,
               Ixn.initializeMint mintKey 9 pk pk],
            recentBlockhash := some bh1, feePayer := some pk }
        if env.sign1 = false then
          ⟨{ s1 with history := failByType TxKind.creation s1.history },
            OpResult.err (OpErr.caught TxKind.creation),
            [NetCall.getMinBalanceRent, NetCall.getLatestBlockhash], none, some mintKey⟩
        else
          match env.send1 with
          | none =>
            ⟨{ s1 with history := failByType TxKind.creation s1.history },
              OpResult.err (OpErr.caught TxKind.creation),
              [NetCall.getMinBalanceRent, NetCall.getLatestBlockhash,
               NetCall.sendRawTransaction tx1], none, some mintKey⟩
          | some sig1 =>
            let rcd : TxRecord :=
              { kind := TxKind.creation, signature := sig1, timestamp := env.now,
                amount := none, recipient := none, status := TxStatus.pending }
            let s2 := { s1 with history := s1.history ++ [rcd] }
            let tr0 :=
              [NetCall.getMinBalanceRent, NetCall.getLatestBlockhash,
               NetCall.sendRawTransaction tx1, NetCall.confirmTransaction sig1]
            if env.confirm1 = false then
              ⟨{ s2 with history := failByType TxKind.creation s2.history },
                OpResult.err (OpErr.caught TxKind.creation), tr0, some rcd, some mintKey⟩
            else
              let ata := deriveATA mintKey pk
              match env.blockhash2 with
              | none =>
                ⟨{ s2 with history := failByType TxKind.creation s2.history },
                  OpResult.err (OpErr.caught TxKind.creation),
                  tr0 ++ [NetCall.getLatestBlockhash], some rcd, some mintKey⟩
              | some bh2 =>
                let tx2 : SolTransaction :=
                  { instructions := [Ixn.createATA pk ata pk mintKey],
                    recentBlockhash := some bh2, feePayer := some pk }
                if env.sign2 = false then
                  ⟨{ s2 with history := failByType TxKind.creation s2.history },
                    OpResult.err (OpErr.caught TxKind.creation),
                    tr0 ++ [NetCall.getLatestBlockhash], some rcd, some mintKey⟩
                else
                  match env.send2 with
                  | none =>
                    ⟨{ s2 with history := failByType TxKind.creation s2.history },
                      OpResult.err (OpErr.caught TxKind.creation),
                      tr0 ++ [NetCall.getLatestBlockhash, NetCall.sendRawTransaction tx2],
                      some rcd, some mintKey⟩
                  | some sig2 =>
                    if env.confirm2 = false then
                      ⟨{ s2 with history := failByType TxKind.creation s2.history },
                        OpResult.err (OpErr.caught TxKind.creation),
                        tr0 ++ [NetCall.getLatestBlockhash, NetCall.sendRawTransaction tx2,
                          NetCall.confirmTransaction sig2],
                        some rcd, some mintKey⟩
                    else
                      let refreshed :=
                        refreshTokenBalance s2.publicKey s2.tokenAccount s2.tokenBalance env
                      ⟨{ s2 with
                          tokenMint := some mintKey,
                          tokenAccount := some ata,
                          tokenBalance := refreshed.1,
                          history := confirmBySig sig1 s2.history },
                        OpResult.ok,
                        tr0 ++ [NetCall.getLatestBlockhash, NetCall.sendRawTransaction tx2,
                          NetCall.confirmTransaction sig2] ++ refreshed.2,
                        some rcd, some mintKey⟩

/-- `mintTokens` (App.tsx lines 953-1012): validates the amount with
`parseFloat`, builds one transaction with a single mint-to instruction for
`Math.floor(amount * 1e9)` base units, submits, confirms, refreshes the
token balance and clears the input; any throw lands in the catch, which
marks every record of kind Mint as failed. -/
def mintTokens (s : SessionState) (env : Env) : OpOut :=
  match mintGuard s with
  | none => ⟨s, OpResult.err OpErr.missingRequiredParameters, [], none, none⟩
  | some (pk, m, acc) =>
    match jsParseFloat s.mintAmount with
    | none => ⟨s, OpResult.err OpErr.invalidMintAmount, [], none, none⟩
    | some a =>
      if a ≤ 0 then ⟨s, OpResult.err OpErr.invalidMintAmount, [], none, none⟩
      else
        match env.blockhash1 with
        | none =>
          ⟨{ s with history := failByType TxKind.mint s.history },
            OpResult.err (OpErr.caught TxKind.mint),
            [NetCall.getLatestBlockhash], none, none⟩
        | some bh =>
          let tx : SolTransaction :=
            { instructions := [Ixn.mintTo m acc pk (scaledBaseUnits a)],
              recentBlockhash := some bh, feePayer := some pk }
          if env.sign1 = false then
            ⟨{ s with history := failByType TxKind.mint s.history },
              OpResult.err (OpErr.caught TxKind.mint),
              [NetCall.getLatestBlockhash], none, none⟩
          else
            match env.send1 with
            | none =>
              ⟨{ s with history := failByType TxKind.mint s.history },
                OpResult.err (OpErr.caught TxKind.mint),
                [NetCall.getLatestBlockhash, NetCall.sendRawTransaction tx], none, none⟩
            | some sig =>
              let rcd : TxRecord :=
                { kind := TxKind.mint, signature := sig, timestamp := env.now,
                  amount := some a, recipient := none, status := TxStatus.pending }
              let s2 := { s with history := s.history ++ [rcd] }
              let tr0 :=
                [NetCall.getLatestBlockhash, NetCall.sendRawTransaction tx,
                 NetCall.confirmTransaction sig]
              if env.confirm1 = false then
                ⟨{ s2 with history := failByType TxKind.mint s2.history },
                  OpResult.err (OpErr.caught TxKind.mint), tr0, some rcd, none⟩
              else
                let refreshed :=
                  refreshTokenBalance s2.publicKey s2.tokenAccount s2.tokenBalance env
                ⟨{ s2 with
                    tokenBalance := refreshed.1,
                    history := confirmBySig sig s2.history,
                    mintAmount := "" },
                  OpResult.ok, tr0 ++ refreshed.2, some rcd, none⟩

/-- `transferTokens` (App.tsx lines 1014-1107): local validation first
(fields filled, `parseFloat` amount, positivity, balance bound), then the
recipient address parse, the associated-account existence probe (any
probe failure leads to prepending a create-account instruction), the
transfer instruction, submission, confirmation, balance refresh; any throw
lands in the catch, which marks every record of kind Transfer as
failed. -/
def transferTokens (s : SessionState) (env : Env) : OpOut :=
  match transferGuard s with
  | none => ⟨s, OpResult.err OpErr.connectAndFillAllFields, [], none, none⟩
  | some (pk, m, acc) =>
    match jsParseFloat s.transferAmount with
    | none => ⟨s, OpResult.err OpErr.invalidTransferAmount, [], none, none⟩
    | some a =>
      if a ≤ 0 then ⟨s, OpResult.err OpErr.amountNotPositive, [], none, none⟩
      else if s.tokenBalance < a then
        ⟨s, OpResult.err (OpErr.insufficientBalance s.tokenBalance), [], none, none⟩
      else
        match parsePubKey s.recipientAddress with
        | none =>
          ⟨{ s with history := failByType TxKind.transfer s.history },
            OpResult.err (OpErr.caught TxKind.transfer), [], none, none⟩
        | some rpk =>
          let ataR := deriveATA m rpk
          let createIxns : List Ixn :=
            if env.recipientAccountExists then [] else [Ixn.createATA pk ataR rpk m]
          match env.blockhash1 with
          | none =>
            ⟨{ s with history := failByType TxKind.transfer s.history },
              OpResult.err (OpErr.caught TxKind.transfer),
              [NetCall.getAccount ataR, NetCall.getLatestBlockhash], none, none⟩
          | some bh =>
            let tx : SolTransaction :=
              { instructions :=
                  createIxns ++ [Ixn.transfer acc ataR pk (scaledBaseUnits a)],
                recentBlockhash := some bh, feePayer := some pk }
            if env.sign1 = false then
              ⟨{ s with history := failByType TxKind.transfer s.history },
                OpResult.err (OpErr.caught TxKind.transfer),
                [NetCall.getAccount ataR, NetCall.getLatestBlockhash], none, none⟩
            else
              match env.send1 with
              | none =>
                ⟨{ s with history := failByType TxKind.transfer s.history },
                  OpResult.err (OpErr.caught TxKind.transfer),
                  [NetCall.getAccount ataR, NetCall.getLatestBlockhash,
                   NetCall.sendRawTransaction tx], none, none⟩
              | some sig =>
                let rcd : TxRecord :=
                  { kind := TxKind.transfer, signature := sig, timestamp := env.now,
                    amount := some a, recipient := some s.recipientAddress,
                    status := TxStatus.pending }
                let s2 := { s with history := s.history ++ [rcd] }
                let tr0 :=
                  [NetCall.getAccount ataR, NetCall.getLatestBlockhash,
                   NetCall.sendRawTransaction tx, NetCall.confirmTransaction sig]
                if env.confirm1 = false then
                  ⟨{ s2 with history := failByType TxKind.transfer s2.history },
                    OpResult.err (OpErr.caught TxKind.transfer), tr0, some rcd, none⟩
                else
                  let refreshed :=
                    refreshTokenBalance s2.publicKey s2.tokenAccount s2.tokenBalance env
                  ⟨{ s2 with
                      tokenBalance := refreshed.1,
                      history := confirmBySig sig s2.history,
                      transferAmount := "" },
                    OpResult.ok, tr0 ++ refreshed.2, some rcd, none⟩

/-- The events that can mutate the session: the three orchestrator
operations, the two balance refreshes (timer / effect driven), wallet
connection changes and input-field edits. -/
inductive Call
  | create (env : Env)
  | mint (env : Env)
  | transfer (env : Env)
  | fetchSol (env : Env)
  | fetchToken (env : Env)
  | connect (pk : PubKey)
  | disconnect
  | setRecipient (v : String)
  | setTransferAmount (v : String)
  | setMintAmount (v : String)
deriving Repr

/-- The record kind an invocation tracks, if it is a mutating operation. -/
def callKind : Call → Option TxKind
  | Call.create _ => some TxKind.creation
  | Call.mint _ => some TxKind.mint
  | Call.transfer _ => some TxKind.transfer
  | _ => none

/-- One step of the session. -/
def applyCall (s : SessionState) (c : Call) : OpOut :=
  match c with
  | Call.create env => createToken s env
  | Call.mint env => mintTokens s env
  | Call.transfer env => transferTokens s env
  | Call.fetchSol env => fetchSolBalance s env
  | Call.fetchToken env => fetchTokenBalance s env
  | Call.connect pk =>
    ⟨{ s with publicKey := some pk, signCapable := true }, OpResult.ok, [], none, none⟩
  | Call.disconnect =>
    ⟨{ s with publicKey := none, signCapable := false }, OpResult.ok, [], none, none⟩
  | Call.setRecipient v => ⟨{ s with recipientAddress := v }, OpResult.ok, [], none, none⟩
  | Call.setTransferAmount v => ⟨{ s with transferAmount := v }, OpResult.ok, [], none, none⟩
  | Call.setMintAmount v => ⟨{ s with mintAmount := v }, OpResult.ok, [], none, none⟩

/-- The initial session state of the page. -/
def initState : SessionState :=
  { publicKey := none, signCapable := false, solBalance := 0, tokenMint := none,
    tokenAccount := none, tokenBalance := 0, recipientAddress := "",
    transferAmount := "", mintAmount := "", history := [], keyNonce := 0 }

/-- Running a sequence of calls. -/
def run (s : SessionState) (cs : List Call) : SessionState :=
  cs.foldl (fun t c => (applyCall t c).state) s

/-!
## Basic lemmas about the embedding
-/

lemma scaledBaseUnits_eq_floor (a : ℚ) : scaledBaseUnits a = ⌊a * 1000000000⌋ := by
  rw [scaledBaseUnits, Int.fdiv_eq_ediv _ (Int.ofNat_nonneg a.den),
    ← Rat.floor_intCast_div_natCast (a.num * 1000000000) a.den]
  congr 1
  push_cast
  have hden : ((a.den : ℚ)) ≠ 0 := by
    exact_mod_cast a.den_nz
  have hnum : ((a.num : ℚ)) = a * (a.den : ℚ) := (div_eq_iff hden).mp (Rat.num_div_den a)
  rw [div_eq_iff hden, hnum]
  ring

lemma walletGuard_of_absent (s : SessionState)
    (h : s.publicKey = none ∨ s.signCapable = false) : walletGuard s = none := by
  rcases h with h | h
  · simp [walletGuard, h]
  · unfold walletGuard
    cases s.publicKey <;> simp [h]

lemma mintGuard_of_absent (s : SessionState)
    (h : s.publicKey = none ∨ s.signCapable = false) : mintGuard s = none := by
  unfold mintGuard
  rw [walletGuard_of_absent s h]

lemma transferGuard_of_absent (s : SessionState)
    (h : s.publicKey = none ∨ s.signCapable = false) : transferGuard s = none := by
  unfold transferGuard
  rw [mintGuard_of_absent s h]

lemma walletGuard_of_present (s : SessionState) (pk : PubKey)
    (h1 : s.publicKey = some pk) (h2 : s.signCapable = true) :
    walletGuard s = some pk := by
  simp [walletGuard, h1, h2]

lemma mintGuard_of_present (s : SessionState) (pk m acc : PubKey)
    (h1 : s.publicKey = some pk) (h2 : s.signCapable = true)
    (h3 : s.tokenMint = some m) (h4 : s.tokenAccount = some acc) :
    mintGuard s = some (pk, m, acc) := by
  unfold mintGuard
  rw [walletGuard_of_present s pk h1 h2, h3, h4]

lemma transferGuard_of_present (s : SessionState) (pk m acc : PubKey)
    (h1 : s.publicKey = some pk) (h2 : s.signCapable = true)
    (h3 : s.tokenMint = some m) (h4 : s.tokenAccount = some acc)
    (h5 : s.recipientAddress ≠ "") (h6 : s.transferAmount ≠ "") :
    transferGuard s = some (pk, m, acc) := by
  unfold transferGuard
  rw [mintGuard_of_present s pk m acc h1 h2 h3 h4]
  simp [h5, h6]

lemma jsParseFloat_empty : jsParseFloat "" = none := by decide

/-!
## C3: operations while disconnected
-/

/-- C3.  If the wallet session is absent (no public key or no signing
capability), each of `createToken`, `mintTokens`, `transferTokens` fails
on its first guard with the corresponding not-connected toast (the code
surfaces are the messages "Wallet not connected", "Missing required
parameters" and "Please connect wallet and fill all fields", which are the
spec taxonomy NotConnected for this trigger), performs zero network calls,
and leaves the session state, in particular the transaction log,
completely unchanged. -/
theorem C3_disconnected_no_effect (s : SessionState) (env : Env)
    (h : s.publicKey = none ∨ s.signCapable = false) :
    createToken s env = ⟨s, OpResult.err OpErr.walletNotConnected, [], none, none⟩ ∧
    mintTokens s env = ⟨s, OpResult.err OpErr.missingRequiredParameters, [], none, none⟩ ∧
    transferTokens s env = ⟨s, OpResult.err OpErr.connectAndFillAllFields, [], none, none⟩ := by
  refine ⟨?_, ?_, ?_⟩
  · unfold createToken
    rw [walletGuard_of_absent s h]
  · unfold mintTokens
    rw [mintGuard_of_absent s h]
  · unfold transferTokens
    rw [transferGuard_of_absent s h]

/-- Witness for C3 at a concrete disconnected state. -/
theorem C3_disconnected_no_effect_witness :
    createToken initState ⟨0, some 1, some 2, true, some 3, true, some 4, true, some 5,
        true, true, some 6, some 7⟩ =
      ⟨initState, OpResult.err OpErr.walletNotConnected, [], none, none⟩ :=
  (C3_disconnected_no_effect initState _ (Or.inl (by decide))).1

/-!
## C2: the mint / associated-account pair
-/

lemma createToken_context (s : SessionState) (env : Env) :
    ((createToken s env).state.tokenMint = s.tokenMint ∧
     (createToken s env).state.tokenAccount = s.tokenAccount) ∨
    (∃ k a, (createToken s env).state.tokenMint = some k ∧
      (createToken s env).state.tokenAccount = some a) := by
  unfold createToken
  repeat' split
  all_goals first
    | exact Or.inl ⟨rfl, rfl⟩
    | exact Or.inr ⟨_, _, rfl, rfl⟩

lemma mintTokens_context (s : SessionState) (env : Env) :
    (mintTokens s env).state.tokenMint = s.tokenMint ∧
    (mintTokens s env).state.tokenAccount = s.tokenAccount := by
  unfold mintTokens
  repeat' split
  all_goals exact ⟨rfl, rfl⟩

lemma transferTokens_context (s : SessionState) (env : Env) :
    (transferTokens s env).state.tokenMint = s.tokenMint ∧
    (transferTokens s env).state.tokenAccount = s.tokenAccount := by
  unfold transferTokens
  repeat' split
  all_goals exact ⟨rfl, rfl⟩

lemma fetchSolBalance_context (s : SessionState) (env : Env) :
    (fetchSolBalance s env).state.tokenMint = s.tokenMint ∧
    (fetchSolBalance s env).state.tokenAccount = s.tokenAccount := by
  unfold fetchSolBalance
  repeat' split
  all_goals exact ⟨rfl, rfl⟩

lemma fetchTokenBalance_context (s : SessionState) (env : Env) :
    (fetchTokenBalance s env).state.tokenMint = s.tokenMint ∧
    (fetchTokenBalance s env).state.tokenAccount = s.tokenAccount := by
  unfold fetchTokenBalance refreshTokenBalance
  repeat' split
  all_goals exact ⟨rfl, rfl⟩

lemma applyCall_context (s : SessionState) (c : Call) :
    ((applyCall s c).state.tokenMint = s.tokenMint ∧
     (applyCall s c).state.tokenAccount = s.tokenAccount) ∨
    (∃ k a, (applyCall s c).state.tokenMint = some k ∧
      (applyCall s c).state.tokenAccount = some a) := by
  cases c with
  | create env => exact createToken_context s env
  | mint env => exact Or.inl (mintTokens_context s env)
  | transfer env => exact Or.inl (transferTokens_context s env)
  | fetchSol env => exact Or.inl (fetchSolBalance_context s env)
  | fetchToken env => exact Or.inl (fetchTokenBalance_context s env)
  | connect pk => exact Or.inl ⟨rfl, rfl⟩
  | disconnect => exact Or.inl ⟨rfl, rfl⟩
  | setRecipient v => exact Or.inl ⟨rfl, rfl⟩
  | setTransferAmount v => exact Or.inl ⟨rfl, rfl⟩
  | setMintAmount v => exact Or.inl ⟨rfl, rfl⟩

/-- The pairing invariant of the token context. -/
def ctxPaired (s : SessionState) : Prop :=
  s.tokenMint = none ↔ s.tokenAccount = none

lemma ctxPaired_step (s : SessionState) (c : Call) (h : ctxPaired s) :
    ctxPaired (applyCall s c).state := by
  rcases applyCall_context s c with ⟨h1, h2⟩ | ⟨k, a, h1, h2⟩
  · unfold ctxPaired at h ⊢
    rw [h1, h2]
    exact h
  · unfold ctxPaired
    rw [h1, h2]
    simp

lemma ctxPaired_run (cs : List Call) : ∀ s, ctxPaired s → ctxPaired (run s cs) := by
  induction cs with
  | nil => exact fun s h => h
  | cons c cs ih => exact fun s h => ih _ (ctxPaired_step s c h)

/-- C2.  In every session state reachable from the initial page state,
`tokenAccount` is non-null iff `tokenMint` is non-null; and when the first
sub-step of `createToken` (mint creation) fully succeeds but the second
sub-step (associated-account creation) fails at any of its four stages,
the token context stays fully null and the invocation reports the caught
creation failure. -/
theorem C2_context_pairing :
    (∀ calls : List Call,
      ((run initState calls).tokenMint = none ↔ (run initState calls).tokenAccount = none)) ∧
    (∀ (s : SessionState) (env : Env) (pk : PubKey),
      s.publicKey = some pk → s.signCapable = true →
      s.tokenMint = none → s.tokenAccount = none →
      env.rentLamports.isSome → env.blockhash1.isSome → env.sign1 = true →
      env.send1.isSome → env.confirm1 = true →
      (env.blockhash2 = none ∨ env.sign2 = false ∨ env.send2 = none ∨ env.confirm2 = false) →
      (createToken s env).state.tokenMint = none ∧
      (createToken s env).state.tokenAccount = none ∧
      (createToken s env).result = OpResult.err (OpErr.caught TxKind.creation)) := by
  constructor
  · intro calls
    exact ctxPaired_run calls initState Iff.rfl
  · intro s env pk hpk hsc hm hacc hrent hbh1 hsg1 hsend1 hcf1 hfail
    obtain ⟨lam, hlam⟩ := Option.isSome_iff_exists.mp hrent
    obtain ⟨b1, hb1⟩ := Option.isSome_iff_exists.mp hbh1
    obtain ⟨g1, hg1⟩ := Option.isSome_iff_exists.mp hsend1
    have hw := walletGuard_of_present s pk hpk hsc
    cases hb2 : env.blockhash2 with
    | none =>
      simp [createToken, hw, hlam, hb1, hsg1, hg1, hcf1, hb2, hm, hacc]
    | some b2 =>
      cases hs2 : env.sign2 with
      | false =>
        simp [createToken, hw, hlam, hb1, hsg1, hg1, hcf1, hb2, hs2, hm, hacc]
      | true =>
        cases hd2 : env.send2 with
        | none =>
          simp [createToken, hw, hlam, hb1, hsg1, hg1, hcf1, hb2, hs2, hd2, hm, hacc]
        | some g2 =>
          cases hc2 : env.confirm2 with
          | false =>
            simp [createToken, hw, hlam, hb1, hsg1, hg1, hcf1, hb2, hs2, hd2, hc2, hm, hacc]
          | true =>
            exfalso
            simp [hb2, hs2, hd2, hc2] at hfail

/-- Concrete connected state with empty token context. -/
def sFresh : SessionState :=
  { publicKey := some 7, signCapable := true, solBalance := 0, tokenMint := none,
    tokenAccount := none, tokenBalance := 0, recipientAddress := "",
    transferAmount := "", mintAmount := "", history := [], keyNonce := 0 }

/-- Environment where the first sub-step succeeds and the second
blockhash fetch throws. -/
def envAtaFail : Env :=
  ⟨0, some 1000, some 11, true, some 101, true, none, true, some 102, true, true,
    some 0, some 0⟩

/-- Witness for C2 at a concrete reachable state and a concrete
second-sub-step failure. -/
theorem C2_context_pairing_witness :
    ((run initState []).tokenMint = none ↔ (run initState []).tokenAccount = none) ∧
    ((createToken sFresh envAtaFail).state.tokenMint = none ∧
     (createToken sFresh envAtaFail).state.tokenAccount = none ∧
     (createToken sFresh envAtaFail).result = OpResult.err (OpErr.caught TxKind.creation)) :=
  ⟨C2_context_pairing.1 [],
   C2_context_pairing.2 sFresh envAtaFail 7 (by decide) (by decide) (by decide) (by decide)
     (by decide) (by decide) (by decide) (by decide) (by decide) (Or.inl (by decide))⟩

/-!
## C9: fresh mint identity on every invocation
-/

lemma createToken_gen (s : SessionState) (env : Env) (pk : PubKey)
    (hpk : s.publicKey = some pk) (hsc : s.signCapable = true) :
    (createToken s env).genKey = some s.keyNonce ∧
    (createToken s env).state.keyNonce = s.keyNonce + 1 ∧
    (createToken s env).state.publicKey = s.publicKey ∧
    (createToken s env).state.signCapable = s.signCapable := by
  have hw := walletGuard_of_present s pk hpk hsc
  unfold createToken
  rw [hw]
  repeat' split
  all_goals first
    | exact ⟨rfl, rfl, rfl, rfl⟩
    | simp_all

/-- C9.  `Keypair.generate()` is called inside every `createToken`
invocation and the generated identity is never cached: two consecutive
invocations (in particular, a retry after a failed attempt, whatever the
failure of the first run was) always use distinct mint identities. -/
theorem C9_fresh_mint_identity (s : SessionState) (env1 env2 : Env) (pk : PubKey)
    (hpk : s.publicKey = some pk) (hsc : s.signCapable = true) :
    ∃ k1 k2, (createToken s env1).genKey = some k1 ∧
      (createToken (createToken s env1).state env2).genKey = some k2 ∧ k1 ≠ k2 := by
  obtain ⟨hg1, hn1, hp1, hs1⟩ := createToken_gen s env1 pk hpk hsc
  obtain ⟨hg2, hn2, hp2, hs2⟩ :=
    createToken_gen (createToken s env1).state env2 pk (hp1.trans hpk) (hs1.trans hsc)
  have hg2b : (createToken (createToken s env1).state env2).genKey = some (s.keyNonce + 1) := by
    rw [← hn1]
    exact hg2
  exact ⟨s.keyNonce, s.keyNonce + 1, hg1, hg2b, (Nat.succ_ne_self s.keyNonce).symm⟩

/-- Witness for C9: a failed attempt followed by a retry uses a new mint
identity. -/
theorem C9_fresh_mint_identity_witness :
    ∃ k1 k2, (createToken sFresh envAtaFail).genKey = some k1 ∧
      (createToken (createToken sFresh envAtaFail).state envAtaFail).genKey = some k2 ∧
      k1 ≠ k2 :=
  C9_fresh_mint_identity sFresh envAtaFail envAtaFail 7 (by decide) (by decide)

/-!
## C1: status transitions of the transaction log
-/

/-- The four ways an operation invocation can transform the history: left
untouched, failure handler applied to the old log, failure handler applied
after appending the pending record, or confirm-by-signature applied after
appending the pending record. -/
def HistShape (s : SessionState) (k : TxKind) (o : OpOut) : Prop :=
  (o.state.history = s.history ∧ o.appended = none) ∨
  (o.result = OpResult.err (OpErr.caught k) ∧ o.appended = none ∧
    o.state.history = failByType k s.history) ∨
  (∃ r, o.result = OpResult.err (OpErr.caught k) ∧ o.appended = some r ∧
    r.status = TxStatus.pending ∧ o.state.history = failByType k (s.history ++ [r])) ∨
  (∃ sg r, o.appended = some r ∧ r.status = TxStatus.pending ∧
    o.state.history = confirmBySig sg (s.history ++ [r]))

lemma createToken_shape (s : SessionState) (env : Env) :
    HistShape s TxKind.creation (createToken s env) := by
  unfold HistShape createToken
  repeat' split
  all_goals first
    | exact Or.inl ⟨rfl, rfl⟩
    | exact Or.inr (Or.inl ⟨rfl, rfl, rfl⟩)
    | exact Or.inr (Or.inr (Or.inl ⟨_, rfl, rfl, rfl, rfl⟩))
    | exact Or.inr (Or.inr (Or.inr ⟨_, _, rfl, rfl, rfl⟩))

lemma mintTokens_shape (s : SessionState) (env : Env) :
    HistShape s TxKind.mint (mintTokens s env) := by
  unfold HistShape mintTokens
  repeat' split
  all_goals first
    | exact Or.inl ⟨rfl, rfl⟩
    | exact Or.inr (Or.inl ⟨rfl, rfl, rfl⟩)
    | exact Or.inr (Or.inr (Or.inl ⟨_, rfl, rfl, rfl, rfl⟩))
    | exact Or.inr (Or.inr (Or.inr ⟨_, _, rfl, rfl, rfl⟩))

lemma transferTokens_shape (s : SessionState) (env : Env) :
    HistShape s TxKind.transfer (transferTokens s env) := by
  unfold HistShape transferTokens
  repeat' split
  all_goals first
    | exact Or.inl ⟨rfl, rfl⟩
    | exact Or.inr (Or.inl ⟨rfl, rfl, rfl⟩)
    | exact Or.inr (Or.inr (Or.inl ⟨_, rfl, rfl, rfl, rfl⟩))
    | exact Or.inr (Or.inr (Or.inr ⟨_, _, rfl, rfl, rfl⟩))

lemma applyCall_shape_op (s : SessionState) (c : Call) (k : TxKind)
    (h : callKind c = some k) : HistShape s k (applyCall s c) := by
  cases c with
  | create env =>
    have hk : k = TxKind.creation := by
      simp [callKind] at h
      exact h.symm
    rw [hk]
    exact createToken_shape s env
  | mint env =>
    have hk : k = TxKind.mint := by
      simp [callKind] at h
      exact h.symm
    rw [hk]
    exact mintTokens_shape s env
  | transfer env =>
    have hk : k = TxKind.transfer := by
      simp [callKind] at h
      exact h.symm
    rw [hk]
    exact transferTokens_shape s env
  | fetchSol env => exact absurd h (by simp [callKind])
  | fetchToken env => exact absurd h (by simp [callKind])
  | connect pk => exact absurd h (by simp [callKind])
  | disconnect => exact absurd h (by simp [callKind])
  | setRecipient v => exact absurd h (by simp [callKind])
  | setTransferAmount v => exact absurd h (by simp [callKind])
  | setMintAmount v => exact absurd h (by simp [callKind])

lemma applyCall_nonOp (s : SessionState) (c : Call) (h : callKind c = none) :
    (applyCall s c).state.history = s.history ∧ (applyCall s c).appended = none := by
  cases c with
  | create env => exact absurd h (by simp [callKind])
  | mint env => exact absurd h (by simp [callKind])
  | transfer env => exact absurd h (by simp [callKind])
  | fetchSol env =>
    show (fetchSolBalance s env).state.history = s.history ∧
      (fetchSolBalance s env).appended = none
    unfold fetchSolBalance
    repeat' split
    all_goals exact ⟨rfl, rfl⟩
  | fetchToken env =>
    show (fetchTokenBalance s env).state.history = s.history ∧
      (fetchTokenBalance s env).appended = none
    unfold fetchTokenBalance refreshTokenBalance
    repeat' split
    all_goals exact ⟨rfl, rfl⟩
  | connect pk => exact ⟨rfl, rfl⟩
  | disconnect => exact ⟨rfl, rfl⟩
  | setRecipient v => exact ⟨rfl, rfl⟩
  | setTransferAmount v => exact ⟨rfl, rfl⟩
  | setMintAmount v => exact ⟨rfl, rfl⟩

lemma get?_lt_length {α : Type} (l : List α) (i : Nat) (a : α)
    (h : l.get? i = some a) : i < l.length := by
  by_contra hlen
  rw [List.get?_eq_none.mpr (le_of_not_lt hlen)] at h
  exact Option.noConfusion h

lemma failByType_get?_of_ne (k : TxKind) (h : List TxRecord) (i : Nat) (r : TxRecord)
    (hi : h.get? i = some r) (hk : r.kind ≠ k) :
    (failByType k h).get? i = some r := by
  unfold failByType
  rw [List.get?_map, hi]
  simp [hk]

lemma confirmBySig_get?_confirmed (sg : Sig) (h : List TxRecord) (i : Nat) (r : TxRecord)
    (hi : h.get? i = some r) (hr : r.status = TxStatus.confirmed) :
    ∃ q, (confirmBySig sg h).get? i = some q ∧ q.status = TxStatus.confirmed ∧
      q.kind = r.kind := by
  by_cases hs : r.signature = sg
  · refine ⟨{ r with status := TxStatus.confirmed }, ?_, rfl, rfl⟩
    unfold confirmBySig
    rw [List.get?_map, hi]
    simp [hs]
  · refine ⟨r, ?_, hr, rfl⟩
    unfold confirmBySig
    rw [List.get?_map, hi]
    simp [hs]

lemma append_get?_of_lt (h : List TxRecord) (r0 : TxRecord) (i : Nat) (r : TxRecord)
    (hi : h.get? i = some r) : (h ++ [r0]).get? i = some r := by
  rw [List.get?_append (get?_lt_length h i r hi)]
  exact hi

/-- Environment where every collaborator call succeeds. -/
def envAllOk : Env :=
  ⟨0, some 1000, some 11, true, some 101, true, some 12, true, some 102, true, true,
    some 5000000000, some 0⟩

/-- Environment where the very first call (rent-exemption fetch) throws. -/
def envRentFail : Env :=
  ⟨0, none, some 11, true, some 101, true, some 12, true, some 102, true, true,
    some 0, some 0⟩

/-- Environment where the first confirmation throws (record already
appended). -/
def envConfirmFail : Env :=
  ⟨3, some 1000, some 11, true, some 101, false, some 12, true, some 102, true, true,
    some 0, some 0⟩

/-- C1 counterexample.  A successful `createToken` leaves its record
Confirmed; a second, failing `createToken` invocation then flips that
previously-Confirmed record back to Failed, because the catch handler
marks every record of kind Creation as failed.  This refutes the claim
that a record that reached Confirmed never later has status Failed. -/
theorem C1_counterexample :
    ((run initState [Call.connect 7, Call.create envAllOk]).history.map TxRecord.status
        = [TxStatus.confirmed]) ∧
    ((run initState [Call.connect 7, Call.create envAllOk,
        Call.create envRentFail]).history.map TxRecord.status = [TxStatus.failed]) := by
  decide

/-- C1 amended.  Every record is appended with status Pending; a record
whose status is Confirmed keeps status Confirmed (and its kind) across any
further invocation, unless that invocation is a mutating operation of the
same kind that fails, in which case the catch handler re-marks every
record of that kind as Failed, reverting Confirmed records. -/
theorem C1_status_amended (s : SessionState) (c : Call) :
    (∀ r, (applyCall s c).appended = some r → r.status = TxStatus.pending) ∧
    (∀ i r, s.history.get? i = some r → r.status = TxStatus.confirmed →
      ((applyCall s c).result = OpResult.ok ∨ callKind c ≠ some r.kind) →
      ∃ q, (applyCall s c).state.history.get? i = some q ∧
        q.status = TxStatus.confirmed ∧ q.kind = r.kind) := by
  cases hck : callKind c with
  | none =>
    obtain ⟨hh, ha⟩ := applyCall_nonOp s c hck
    constructor
    · intro r hr
      rw [ha] at hr
      exact Option.noConfusion hr
    · intro i r hi hst _
      refine ⟨r, ?_, hst, rfl⟩
      rw [hh]
      exact hi
  | some k =>
    have hs := applyCall_shape_op s c k hck
    rcases hs with ⟨hh, ha⟩ | ⟨hres, ha, hh⟩ | ⟨r0, hres, ha, hp, hh⟩ | ⟨sg, r0, ha, hp, hh⟩
    · constructor
      · intro r hr
        rw [ha] at hr
        exact Option.noConfusion hr
      · intro i r hi hst _
        refine ⟨r, ?_, hst, rfl⟩
        rw [hh]
        exact hi
    · constructor
      · intro r hr
        rw [ha] at hr
        exact Option.noConfusion hr
      · intro i r hi hst hcase
        rcases hcase with hok | hne
        · exact absurd (hres.symm.trans hok) (by simp)
        · have hkne : r.kind ≠ k := fun he => hne (by rw [he])
          refine ⟨r, ?_, hst, rfl⟩
          rw [hh]
          exact failByType_get?_of_ne k s.history i r hi hkne
    · constructor
      · intro r hr
        exact (Option.some.inj (ha.symm.trans hr)) ▸ hp
      · intro i r hi hst hcase
        rcases hcase with hok | hne
        · exact absurd (hres.symm.trans hok) (by simp)
        · have hkne : r.kind ≠ k := fun he => hne (by rw [he])
          refine ⟨r, ?_, hst, rfl⟩
          rw [hh]
          exact failByType_get?_of_ne k (s.history ++ [r0]) i r
            (append_get?_of_lt s.history r0 i r hi) hkne
    · constructor
      · intro r hr
        exact (Option.some.inj (ha.symm.trans hr)) ▸ hp
      · intro i r hi hst _
        rw [hh]
        exact confirmBySig_get?_confirmed sg (s.history ++ [r0]) i r
          (append_get?_of_lt s.history r0 i r hi) hst

/-- The record a failing-at-confirmation `createToken` on `sFresh` with
`envConfirmFail` appends. -/
def recCreatePending : TxRecord :=
  ⟨TxKind.creation, 101, 3, none, none, TxStatus.pending⟩

/-- A confirmed Mint record sitting in the log. -/
def recMintConfirmed : TxRecord :=
  ⟨TxKind.mint, 55, 0, none, none, TxStatus.confirmed⟩

/-- Connected state whose log holds one confirmed Mint record. -/
def sWithMint : SessionState :=
  { sFresh with history := [recMintConfirmed] }

/-- Witness for the amended C1 at concrete inputs: the appended record of
a concrete invocation is Pending, and a confirmed Mint record survives a
failing Creation invocation. -/
theorem C1_status_amended_witness :
    recCreatePending.status = TxStatus.pending ∧
    (∃ q, (applyCall sWithMint (Call.create envRentFail)).state.history.get? 0 = some q ∧
      q.status = TxStatus.confirmed ∧ q.kind = recMintConfirmed.kind) :=
  ⟨(C1_status_amended sFresh (Call.create envConfirmFail)).1 recCreatePending (by decide),
   (C1_status_amended sWithMint (Call.create envRentFail)).2 0 recMintConfirmed (by decide)
     (by decide) (Or.inr (by decide))⟩

/-!
## C4 and C5: transfer-side local validation
-/

lemma transferGuard_of_empty_amount (s : SessionState) (h : s.transferAmount = "") :
    transferGuard s = none := by
  unfold transferGuard
  cases hmg : mintGuard s with
  | none => rfl
  | some t => simp [h]

lemma ne_empty_of_parse_some (str : String) (a : ℚ) (h : jsParseFloat str = some a) :
    str ≠ "" := by
  intro he
  rw [he, jsParseFloat_empty] at h
  exact Option.noConfusion h

/-- C4.  With the wallet connected and the token context set (and a
recipient entered), every invalid amount input is rejected by pure local
validation: empty input hits the fields guard, a `NaN` parse or a
non-positive value hits the amount checks, and a value larger than the
cached balance hits the balance check.  In every case the result is the
corresponding error, the network trace is empty and the state (hence the
log) is completely unchanged. -/
theorem C4_transfer_amount_validation (s : SessionState) (env : Env) (pk m acc : PubKey)
    (hpk : s.publicKey = some pk) (hsc : s.signCapable = true)
    (hm : s.tokenMint = some m) (hacc : s.tokenAccount = some acc)
    (hra : s.recipientAddress ≠ "") :
    (s.transferAmount = "" →
      transferTokens s env = ⟨s, OpResult.err OpErr.connectAndFillAllFields, [], none, none⟩) ∧
    (jsParseFloat s.transferAmount = none → s.transferAmount ≠ "" →
      transferTokens s env = ⟨s, OpResult.err OpErr.invalidTransferAmount, [], none, none⟩) ∧
    (∀ a, jsParseFloat s.transferAmount = some a → a ≤ 0 →
      transferTokens s env = ⟨s, OpResult.err OpErr.amountNotPositive, [], none, none⟩) ∧
    (∀ a, jsParseFloat s.transferAmount = some a → 0 < a → s.tokenBalance < a →
      transferTokens s env =
        ⟨s, OpResult.err (OpErr.insufficientBalance s.tokenBalance), [], none, none⟩) := by
  refine ⟨?_, ?_, ?_, ?_⟩
  · intro hempty
    unfold transferTokens
    rw [transferGuard_of_empty_amount s hempty]
  · intro hpf hta
    unfold transferTokens
    rw [transferGuard_of_present s pk m acc hpk hsc hm hacc hra hta, hpf]
  · intro a hpf hle
    unfold transferTokens
    rw [transferGuard_of_present s pk m acc hpk hsc hm hacc hra
      (ne_empty_of_parse_some _ _ hpf), hpf]
    simp [hle]
  · intro a hpf hpos hlt
    unfold transferTokens
    rw [transferGuard_of_present s pk m acc hpk hsc hm hacc hra
      (ne_empty_of_parse_some _ _ hpf), hpf]
    simp [not_le.mpr hpos, hlt]

/-- Connected transfer fixture with recipient "1", given amount input and
balance. -/
def sXfer (amt : String) (bal : ℚ) : SessionState :=
  { publicKey := some 7, signCapable := true, solBalance := 0, tokenMint := some 3,
    tokenAccount := some 4, tokenBalance := bal, recipientAddress := "1",
    transferAmount := amt, mintAmount := "", history := [], keyNonce := 0 }

/-- Witness for C4 at four concrete invalid amount inputs. -/
theorem C4_transfer_amount_validation_witness :
    (transferTokens (sXfer "" 10) envAllOk =
      ⟨sXfer "" 10, OpResult.err OpErr.connectAndFillAllFields, [], none, none⟩) ∧
    (transferTokens (sXfer "abc" 10) envAllOk =
      ⟨sXfer "abc" 10, OpResult.err OpErr.invalidTransferAmount, [], none, none⟩) ∧
    (transferTokens (sXfer "-2" 10) envAllOk =
      ⟨sXfer "-2" 10, OpResult.err OpErr.amountNotPositive, [], none, none⟩) ∧
    (transferTokens (sXfer "15" 10) envAllOk =
      ⟨sXfer "15" 10, OpResult.err (OpErr.insufficientBalance 10), [], none, none⟩) :=
  ⟨(C4_transfer_amount_validation (sXfer "" 10) envAllOk 7 3 4 (by decide) (by decide)
      (by decide) (by decide) (by decide)).1 (by decide),
   (C4_transfer_amount_validation (sXfer "abc" 10) envAllOk 7 3 4 (by decide) (by decide)
      (by decide) (by decide) (by decide)).2.1 (by decide) (by decide),
   (C4_transfer_amount_validation (sXfer "-2" 10) envAllOk 7 3 4 (by decide) (by decide)
      (by decide) (by decide) (by decide)).2.2.1 (-2) (by decide) (by decide),
   (C4_transfer_amount_validation (sXfer "15" 10) envAllOk 7 3 4 (by decide) (by decide)
      (by decide) (by decide) (by decide)).2.2.2 15 (by decide) (by decide) (by decide)⟩

/-- A previously confirmed Transfer record. -/
def recXferConfirmed : TxRecord := ⟨TxKind.transfer, 77, 0, some 1, some "1", TxStatus.confirmed⟩

/-- Connected state with a syntactically invalid recipient address "0"
(the character 0 is not in the base58 alphabet) and one confirmed
Transfer record already in the log. -/
def sBadRecipient : SessionState :=
  { publicKey := some 7, signCapable := true, solBalance := 0, tokenMint := some 3,
    tokenAccount := some 4, tokenBalance := 10, recipientAddress := "0",
    transferAmount := "5", mintAmount := "", history := [recXferConfirmed], keyNonce := 0 }

/-- C5 counterexample.  A transfer with a syntactically invalid recipient
address makes no network call and appends no record, but it is NOT free of
side effects on the log: the `new PublicKey` throw lands in the generic
catch handler, which marks the existing confirmed Transfer record as
Failed. -/
theorem C5_counterexample :
    (transferTokens sBadRecipient envAllOk).trace = [] ∧
    (transferTokens sBadRecipient envAllOk).appended = none ∧
    sBadRecipient.history.map TxRecord.status = [TxStatus.confirmed] ∧
    (transferTokens sBadRecipient envAllOk).state.history.map TxRecord.status
      = [TxStatus.failed] := by
  decide

/-- C5 amended.  With all other preconditions met, a syntactically
invalid recipient address fails before any network call by pure local
validation (`new PublicKey` throws before the existence probe), and no
record is appended; however the failure is surfaced through the generic
catch handler, which marks every existing Transfer-kind record in the log
as Failed, while records of other kinds are left unchanged. -/
theorem C5_invalid_recipient_amended (s : SessionState) (env : Env) (pk m acc : PubKey)
    (a : ℚ)
    (hpk : s.publicKey = some pk) (hsc : s.signCapable = true)
    (hm : s.tokenMint = some m) (hacc : s.tokenAccount = some acc)
    (hra : s.recipientAddress ≠ "")
    (hpf : jsParseFloat s.transferAmount = some a) (hpos : 0 < a)
    (hle : a ≤ s.tokenBalance)
    (hbad : parsePubKey s.recipientAddress = none) :
    transferTokens s env =
      ⟨{ s with history := failByType TxKind.transfer s.history },
        OpResult.err (OpErr.caught TxKind.transfer), [], none, none⟩ ∧
    (∀ i r, s.history.get? i = some r → r.kind ≠ TxKind.transfer →
      (transferTokens s env).state.history.get? i = some r) := by
  have heq : transferTokens s env =
      ⟨{ s with history := failByType TxKind.transfer s.history },
        OpResult.err (OpErr.caught TxKind.transfer), [], none, none⟩ := by
    unfold transferTokens
    rw [transferGuard_of_present s pk m acc hpk hsc hm hacc hra
      (ne_empty_of_parse_some _ _ hpf), hpf]
    simp [not_le.mpr hpos, not_lt.mpr hle, hbad]
  refine ⟨heq, fun i r hi hk => ?_⟩
  rw [heq]
  exact failByType_get?_of_ne TxKind.transfer s.history i r hi hk

/-- Witness for the amended C5 at the concrete invalid-recipient state. -/
theorem C5_invalid_recipient_amended_witness :
    transferTokens sBadRecipient envAllOk =
      ⟨{ sBadRecipient with history := failByType TxKind.transfer sBadRecipient.history },
        OpResult.err (OpErr.caught TxKind.transfer), [], none, none⟩ :=
  (C5_invalid_recipient_amended sBadRecipient envAllOk 7 3 4 5 (by decide) (by decide)
    (by decide) (by decide) (by decide) (by decide) (by decide) (by decide) (by decide)).1

/-!
## C8: failed balance refreshes
-/

/-- Connected state with nonzero cached balances. -/
def sWithBalance : SessionState :=
  { publicKey := some 7, signCapable := true, solBalance := 2, tokenMint := some 3,
    tokenAccount := some 4, tokenBalance := 5, recipientAddress := "",
    transferAmount := "", mintAmount := "", history := [], keyNonce := 0 }

/-- Environment where both balance reads throw. -/
def envReadFail : Env :=
  ⟨0, some 1000, some 11, true, some 101, true, some 12, true, some 102, true, true,
    none, none⟩

/-- C8 counterexample.  A failed token-balance refresh does NOT retain
the previously stored value: the catch branch `setTokenBalance(0)` resets
the cached token balance from 5 to 0. -/
theorem C8_counterexample :
    sWithBalance.tokenBalance = 5 ∧
    (fetchTokenBalance sWithBalance envReadFail).state.tokenBalance = 0 ∧
    (0 : ℚ) ≠ 5 := by
  decide

/-- C8 amended.  Both refreshes are non-fatal (they always report
success).  A failed SOL-balance read leaves the whole session state
unchanged (the previous value is retained); a failed token-balance read
leaves every field unchanged except `tokenBalance`, which it resets to 0
rather than retaining the previous value. -/
theorem C8_refresh_failure_amended (s : SessionState) (env : Env) :
    (env.getBalanceResult = none →
      (fetchSolBalance s env).state = s ∧ (fetchSolBalance s env).result = OpResult.ok) ∧
    (∀ pk acc, s.publicKey = some pk → s.tokenAccount = some acc →
      env.getAccountResult = none →
      (fetchTokenBalance s env).state = { s with tokenBalance := 0 } ∧
      (fetchTokenBalance s env).result = OpResult.ok ∧
      (fetchTokenBalance s env).trace = [NetCall.getAccount acc]) := by
  constructor
  · intro hfail
    unfold fetchSolBalance
    cases hpk : s.publicKey with
    | none => exact ⟨rfl, rfl⟩
    | some pk =>
      rw [hfail]
      exact ⟨rfl, rfl⟩
  · intro pk acc hpk hacc hfail
    unfold fetchTokenBalance refreshTokenBalance
    rw [hpk, hacc, hfail]
    exact ⟨rfl, rfl, rfl⟩

/-- Witness for the amended C8 at the concrete state with cached
balances. -/
theorem C8_refresh_failure_amended_witness :
    ((fetchSolBalance sWithBalance envReadFail).state = sWithBalance ∧
      (fetchSolBalance sWithBalance envReadFail).result = OpResult.ok) ∧
    ((fetchTokenBalance sWithBalance envReadFail).state =
        { sWithBalance with tokenBalance := 0 } ∧
      (fetchTokenBalance sWithBalance envReadFail).result = OpResult.ok ∧
      (fetchTokenBalance sWithBalance envReadFail).trace = [NetCall.getAccount 4]) :=
  ⟨(C8_refresh_failure_amended sWithBalance envReadFail).1 (by decide),
   (C8_refresh_failure_amended sWithBalance envReadFail).2 7 4 (by decide) (by decide)
     (by decide)⟩

/-!
## C6: mint quantity scaling
-/

/-- Connected state whose mint-amount input has ten decimal places. -/
def sMintFrac : SessionState :=
  { publicKey := some 7, signCapable := true, solBalance := 0, tokenMint := some 3,
    tokenAccount := some 4, tokenBalance := 0, recipientAddress := "",
    transferAmount := "", mintAmount := "0.0000000005", history := [], keyNonce := 0 }

/-- C6 counterexample.  The accepted positive amount 0.0000000005 is
minted with base-unit quantity `Math.floor(a * 1e9) = 0`, which differs
from `a * 10^9 = 1/2`: the built transaction carries quantity 0, so the
base-unit quantity does not equal `a` scaled by `10^9`. -/
theorem C6_counterexample :
    jsParseFloat "0.0000000005" = some (mkRat 1 2000000000) ∧
    (0 : ℚ) < mkRat 1 2000000000 ∧
    (mintTokens sMintFrac envAllOk).trace =
      [NetCall.getLatestBlockhash,
       NetCall.sendRawTransaction ⟨[Ixn.mintTo 3 4 7 0], some 11, some 7⟩,
       NetCall.confirmTransaction 101, NetCall.getAccount 4] ∧
    ((0 : ℚ) ≠ mkRat 1 2000000000 * 1000000000) := by
  refine ⟨by decide, by decide, by decide, ?_⟩
  rw [Rat.mkRat_eq_divInt, Rat.divInt_eq_div]
  norm_num

/-- C6 amended.  For every positive amount `a` accepted by `mintTokens`,
the operation builds exactly one transaction containing a single mint-to
instruction whose base-unit quantity is `⌊a * 10^9⌋` (equal to
`a * 10^9` exactly when `a` has at most nine decimal places). -/
theorem C6_mint_scaled_floor (s : SessionState) (env : Env) (pk m acc : PubKey) (a : ℚ)
    (bh sg amt : Nat)
    (hpk : s.publicKey = some pk) (hsc : s.signCapable = true)
    (hm : s.tokenMint = some m) (hacc : s.tokenAccount = some acc)
    (hpf : jsParseFloat s.mintAmount = some a) (hpos : 0 < a)
    (hbh : env.blockhash1 = some bh) (hsg : env.sign1 = true)
    (hsend : env.send1 = some sg) (hcf : env.confirm1 = true)
    (hga : env.getAccountResult = some amt) :
    (mintTokens s env).trace =
      [NetCall.getLatestBlockhash,
       NetCall.sendRawTransaction
         ⟨[Ixn.mintTo m acc pk (scaledBaseUnits a)], some bh, some pk⟩,
       NetCall.confirmTransaction sg, NetCall.getAccount acc] ∧
    scaledBaseUnits a = ⌊a * 1000000000⌋ := by
  refine ⟨?_, scaledBaseUnits_eq_floor a⟩
  unfold mintTokens
  rw [mintGuard_of_present s pk m acc hpk hsc hm hacc, hpf]
  simp [not_le.mpr hpos, hbh, hsg, hsend, hcf, refreshTokenBalance, hpk, hacc, hga]

/-- Connected state whose mint-amount input is "2.5". -/
def sMintPlain : SessionState :=
  { sMintFrac with mintAmount := "2.5" }

/-- Witness for the amended C6 at the concrete amount 2.5. -/
theorem C6_mint_scaled_floor_witness :
    (mintTokens sMintPlain envAllOk).trace =
      [NetCall.getLatestBlockhash,
       NetCall.sendRawTransaction
         ⟨[Ixn.mintTo 3 4 7 (scaledBaseUnits (mkRat 5 2))], some 11, some 7⟩,
       NetCall.confirmTransaction 101, NetCall.getAccount 4] ∧
    scaledBaseUnits (mkRat 5 2) = ⌊(mkRat 5 2 : ℚ) * 1000000000⌋ :=
  C6_mint_scaled_floor sMintPlain envAllOk 7 3 4 (mkRat 5 2) 11 101 5000000000
    (by decide) (by decide) (by decide) (by decide) (by decide) (by decide) (by decide)
    (by decide) (by decide) (by decide) (by decide)

/-!
## C7: transfer instruction composition
-/

/-- C7.  When the sent transaction is built, the recipient
associated-account existence probe decides its instruction list: if the
probe fails the transaction contains the create-associated-account
instruction paid by the sender followed by the transfer instruction; if
the probe succeeds it contains only the transfer instruction. -/
theorem C7_transfer_ixn_composition (s : SessionState) (env : Env) (pk m acc rpk : PubKey)
    (a : ℚ) (bh sg amt : Nat)
    (hpk : s.publicKey = some pk) (hsc : s.signCapable = true)
    (hm : s.tokenMint = some m) (hacc : s.tokenAccount = some acc)
    (hra : s.recipientAddress ≠ "")
    (hrp : parsePubKey s.recipientAddress = some rpk)
    (hpf : jsParseFloat s.transferAmount = some a) (hpos : 0 < a)
    (hle : a ≤ s.tokenBalance)
    (hbh : env.blockhash1 = some bh) (hsg : env.sign1 = true)
    (hsend : env.send1 = some sg) (hcf : env.confirm1 = true)
    (hga : env.getAccountResult = some amt) :
    (env.recipientAccountExists = false →
      (transferTokens s env).trace =
        [NetCall.getAccount (deriveATA m rpk), NetCall.getLatestBlockhash,
         NetCall.sendRawTransaction
           ⟨[Ixn.createATA pk (deriveATA m rpk) rpk m,
             Ixn.transfer acc (deriveATA m rpk) pk (scaledBaseUnits a)], some bh, some pk⟩,
         NetCall.confirmTransaction sg, NetCall.getAccount acc]) ∧
    (env.recipientAccountExists = true →
      (transferTokens s env).trace =
        [NetCall.getAccount (deriveATA m rpk), NetCall.getLatestBlockhash,
         NetCall.sendRawTransaction
           ⟨[Ixn.transfer acc (deriveATA m rpk) pk (scaledBaseUnits a)], some bh, some pk⟩,
         NetCall.confirmTransaction sg, NetCall.getAccount acc]) := by
  constructor
  · intro hprobe
    unfold transferTokens
    rw [transferGuard_of_present s pk m acc hpk hsc hm hacc hra
      (ne_empty_of_parse_some _ _ hpf), hpf]
    simp [not_le.mpr hpos, not_lt.mpr hle, hrp, hprobe, hbh, hsg, hsend, hcf,
      refreshTokenBalance, hpk, hacc, hga]
  · intro hprobe
    unfold transferTokens
    rw [transferGuard_of_present s pk m acc hpk hsc hm hacc hra
      (ne_empty_of_parse_some _ _ hpf), hpf]
    simp [not_le.mpr hpos, not_lt.mpr hle, hrp, hprobe, hbh, hsg, hsend, hcf,
      refreshTokenBalance, hpk, hacc, hga]

/-- Environment where every call succeeds but the recipient
associated-account probe fails (account absent). -/
def envNoRecipientAcct : Env :=
  ⟨0, some 1000, some 11, true, some 101, true, some 12, true, some 102, true, false,
    some 5000000000, some 0⟩

/-- Witness for C7 in both probe outcomes at the concrete transfer
fixture (recipient "1" parses to the all-zero key). -/
theorem C7_transfer_ixn_composition_witness :
    ((transferTokens (sXfer "5" 10) envNoRecipientAcct).trace =
      [NetCall.getAccount (deriveATA 3 0), NetCall.getLatestBlockhash,
       NetCall.sendRawTransaction
         ⟨[Ixn.createATA 7 (deriveATA 3 0) 0 3,
           Ixn.transfer 4 (deriveATA 3 0) 7 (scaledBaseUnits 5)], some 11, some 7⟩,
       NetCall.confirmTransaction 101, NetCall.getAccount 4]) ∧
    ((transferTokens (sXfer "5" 10) envAllOk).trace =
      [NetCall.getAccount (deriveATA 3 0), NetCall.getLatestBlockhash,
       NetCall.sendRawTransaction
         ⟨[Ixn.transfer 4 (deriveATA 3 0) 7 (scaledBaseUnits 5)], some 11, some 7⟩,
       NetCall.confirmTransaction 101, NetCall.getAccount 4]) :=
  ⟨(C7_transfer_ixn_composition (sXfer "5" 10) envNoRecipientAcct 7 3 4 0 5 11 101 5000000000
      (by decide) (by decide) (by decide) (by decide) (by decide) (by decide) (by decide)
      (by decide) (by decide) (by decide) (by decide) (by decide) (by decide) (by decide)).1
      (by decide),
   (C7_transfer_ixn_composition (sXfer "5" 10) envAllOk 7 3 4 0 5 11 101 5000000000
      (by decide) (by decide) (by decide) (by decide) (by decide) (by decide) (by decide)
      (by decide) (by decide) (by decide) (by decide) (by decide) (by decide) (by decide)).2
      (by decide)⟩

/-!
## C10: parseFloat-based amount validation accepts numeric prefixes
-/

/-- C10.  Amount validation in `mintTokens` and `transferTokens` is
`parseFloat`-based: any input string whose longest numeric prefix parses
to a positive value passes validation with that prefix value — in
particular the non-numeral "5abc" is accepted as 5.  The mint and
transfer amount checks then never reject such an input, and any record
the invocation appends carries the prefix value as its amount. -/
theorem C10_parseFloat_lenient :
    jsParseFloat "5abc" = some 5 ∧
    (∀ (s : SessionState) (env : Env) (pk m acc : PubKey) (a : ℚ),
      s.publicKey = some pk → s.signCapable = true →
      s.tokenMint = some m → s.tokenAccount = some acc →
      jsParseFloat s.mintAmount = some a → 0 < a →
      (mintTokens s env).result ≠ OpResult.err OpErr.invalidMintAmount ∧
      (∀ r, (mintTokens s env).appended = some r → r.amount = some a)) ∧
    (∀ (s : SessionState) (env : Env) (pk m acc : PubKey) (a : ℚ),
      s.publicKey = some pk → s.signCapable = true →
      s.tokenMint = some m → s.tokenAccount = some acc → s.recipientAddress ≠ "" →
      jsParseFloat s.transferAmount = some a → 0 < a →
      (transferTokens s env).result ≠ OpResult.err OpErr.invalidTransferAmount ∧
      (transferTokens s env).result ≠ OpResult.err OpErr.amountNotPositive ∧
      (∀ r, (transferTokens s env).appended = some r → r.amount = some a)) := by
  refine ⟨by decide, ?_, ?_⟩
  · intro s env pk m acc a hpk hsc hm hacc hpf hpos
    have hmg := mintGuard_of_present s pk m acc hpk hsc hm hacc
    unfold mintTokens
    rw [hmg, hpf]
    constructor
    · repeat' split
      all_goals (try simp_all)
      all_goals linarith
    · intro r
      repeat' split
      all_goals intro hr
      all_goals first
        | exact Option.noConfusion hr
        | (obtain rfl := Option.some.inj hr; simp_all)
  · intro s env pk m acc a hpk hsc hm hacc hra hpf hpos
    have htg := transferGuard_of_present s pk m acc hpk hsc hm hacc hra
      (ne_empty_of_parse_some _ _ hpf)
    unfold transferTokens
    rw [htg, hpf]
    refine ⟨?_, ?_, ?_⟩
    · repeat' split
      all_goals (try simp_all)
    · repeat' split
      all_goals (try simp_all)
      all_goals linarith
    · intro r
      repeat' split
      all_goals intro hr
      all_goals first
        | exact Option.noConfusion hr
        | (obtain rfl := Option.some.inj hr; simp_all)

/-- Connected state whose mint-amount input is the non-numeral "5abc". -/
def sMint5abc : SessionState :=
  { sMintFrac with mintAmount := "5abc" }

/-- The record the concrete "5abc" mint invocation appends. -/
def recMint5abc : TxRecord := ⟨TxKind.mint, 101, 0, some 5, none, TxStatus.pending⟩

/-- Witness for C10: the "5abc" input passes mint validation and its
appended record carries amount 5; the "5abc" transfer input passes the
transfer amount checks. -/
theorem C10_parseFloat_lenient_witness :
    jsParseFloat "5abc" = some 5 ∧
    (mintTokens sMint5abc envAllOk).result ≠ OpResult.err OpErr.invalidMintAmount ∧
    recMint5abc.amount = some 5 ∧
    (transferTokens (sXfer "5abc" 10) envAllOk).result ≠
      OpResult.err OpErr.invalidTransferAmount :=
  ⟨C10_parseFloat_lenient.1,
   (C10_parseFloat_lenient.2.1 sMint5abc envAllOk 7 3 4 5 (by decide) (by decide)
      (by decide) (by decide) (by decide) (by decide)).1,
   (C10_parseFloat_lenient.2.1 sMint5abc envAllOk 7 3 4 5 (by decide) (by decide)
      (by decide) (by decide) (by decide) (by decide)).2 recMint5abc (by decide),
   (C10_parseFloat_lenient.2.2 (sXfer "5abc" 10) envAllOk 7 3 4 5 (by decide) (by decide)
      (by decide) (by decide) (by decide) (by decide) (by decide)).1⟩
